import Mathlib

/-!
Shallow embedding of the student-resolve complaint tracker.

Sources embedded here:
* `src/components/dashboard/admin/AdminComplaints.tsx`
  (`handleUpdateComplaint`, `handleBulkUpdate`)
* `src/components/dashboard/student/NewComplaint.tsx`
  (`handleSubmit`, `uploadAttachment`)
* `src/components/dashboard/admin/AdminCategories.tsx` (`handleDelete`)
* `src/components/dashboard/admin/AdminReports.tsx` / the priority-aware
  revision of the reports view (`exportToCSV`)
* `src/lib/notifications.ts` (`sendNotification`)
* `supabase/migrations/*.sql` (table defaults for `complaints`)

Strings are modelled as `List Char`; timestamps and row ids as `Nat`
(the concrete values are irrelevant to the control flow being verified).
Remote calls are modelled as an emitted effect trace, with the outcome of
each fallible remote call (insert, upload, delete) passed in as an input.
-/

namespace StudentResolve

/-- Character-list view of a string literal. -/
def str (s : String) : List Char := s.data

/-- `complaint_status` enum from migration `20260117134946`. -/
inductive Status where
  | submitted
  | in_review
  | resolved
deriving DecidableEq, Repr

/-- `complaint_priority` enum from migration `20260122202759`. -/
inductive Priority where
  | low
  | medium
  | high
  | critical
deriving DecidableEq, Repr

/-- Rendering of a `Status` as it appears in template literals
(the raw enum value, e.g. `in_review`). -/
def statusName : Status → List Char
  | .submitted => str "submitted"
  | .in_review => str "in_review"
  | .resolved => str "resolved"

/-- Rendering of a `Priority` as it appears in template literals. -/
def priorityName : Priority → List Char
  | .low => str "low"
  | .medium => str "medium"
  | .high => str "high"
  | .critical => str "critical"

/-- A row of the `complaints` table, restricted to the columns the claims
are about (see the `CREATE TABLE public.complaints` statement and the
`Complaint` interface in `AdminComplaints.tsx`). -/
structure Complaint where
  id : Nat
  user_id : Nat
  category_id : Nat
  subject : List Char
  description : List Char
  status : Status
  priority : Priority
  admin_response : Option (List Char)
  attachment_url : Option (List Char)
  created_at : Nat
  resolved_at : Option Nat
deriving DecidableEq, Repr

/-- A row of the `complaint_logs` table. -/
structure LogEntry where
  complaint_id : Nat
  action : List Char
  old_status : Option Status
  new_status : Option Status
  notes : Option (List Char)
  performed_by : Nat
deriving DecidableEq, Repr

/-- The `NotificationType` union in `src/lib/notifications.ts`. -/
inductive NotificationKind where
  | status_change
  | priority_change
  | admin_comment
deriving DecidableEq, Repr

/-- The `SendNotificationParams` interface in `src/lib/notifications.ts`. -/
structure NotificationParams where
  kind : NotificationKind
  complaintId : Nat
  oldValue : Option (List Char)
  newValue : Option (List Char)
  comment : Option (List Char)
deriving DecidableEq, Repr

/-- The single-complaint update payload built by `handleUpdateComplaint`:
`status`, `priority` and `admin_response` are always present;
`resolved_at` is present only when the handler adds it. -/
structure UpdatePayload where
  status : Status
  priority : Priority
  admin_response : Option (List Char)
  resolved_at : Option Nat
deriving DecidableEq, Repr

/-- The bulk update payload built by `handleBulkUpdate`: every field is
present only when the corresponding branch adds it. -/
structure BulkPayload where
  status : Option Status
  priority : Option Priority
  resolved_at : Option Nat
deriving DecidableEq, Repr

/-- One remote call attempted by the client code. -/
inductive Effect where
  | insertComplaint (c : Complaint)
  | updateComplaint (id : Nat) (u : UpdatePayload)
  | updateComplaints (ids : List Nat) (u : BulkPayload)
  | insertLog (e : LogEntry)
  | uploadFile (path : List Char)
  | updateAttachment (id : Nat) (path : List Char)
  | deleteCategory (id : Nat)
  | notify (p : NotificationParams)
deriving DecidableEq, Repr

/-- `sendNotification` in `src/lib/notifications.ts`: invoking it issues one
call of the `send-notification` edge function carrying its parameters. -/
def sendNotification (p : NotificationParams) : Effect :=
  Effect.notify p

/-- Whether an effect is a notification-dispatcher call. -/
def isNotify : Effect → Bool
  | .notify _ => true
  | _ => false

/-- Whether an effect appends a `complaint_logs` row. -/
def isLog : Effect → Bool
  | .insertLog _ => true
  | _ => false

/-- Number of notification calls attempted in a trace. -/
def notifyCount (effs : List Effect) : Nat :=
  (effs.filter isNotify).length

/-- Number of `complaint_logs` rows appended in a trace. -/
def logCount (effs : List Effect) : Nat :=
  (effs.filter isLog).length

/-- JavaScript `String.prototype.trim`: strip whitespace from both ends. -/
def trim (s : List Char) : List Char :=
  ((s.dropWhile Char.isWhitespace).reverse.dropWhile Char.isWhitespace).reverse

/-- `adminResponse.trim() || null`: empty-after-trim becomes SQL `NULL`. -/
def trimOrNull (s : List Char) : Option (List Char) :=
  if trim s = [] then none else some (trim s)

/-- The update payload assembled by `handleUpdateComplaint`
(`AdminComplaints.tsx` lines 189–197): status, priority and
`admin_response` always; `resolved_at := now` exactly when the new status
is `resolved` and the prior status was not. -/
def updatePayload (prior : Complaint) (newStatus : Status) (newPriority : Priority)
    (adminResponse : List Char) (now : Nat) : UpdatePayload :=
  { status := newStatus
    priority := newPriority
    admin_response := trimOrNull adminResponse
    resolved_at :=
      if newStatus = Status.resolved ∧ prior.status ≠ Status.resolved then some now else none }

/-- Effect of an `UPDATE complaints SET ...` with the given payload on one
row: absent payload fields leave the column as it was. -/
def applyUpdate (c : Complaint) (u : UpdatePayload) : Complaint :=
  { c with
    status := u.status
    priority := u.priority
    admin_response := u.admin_response
    resolved_at :=
      match u.resolved_at with
      | some t => some t
      | none => c.resolved_at }

/-- The `complaint_logs` row inserted by `handleUpdateComplaint`
(lines 207–214). -/
def updateLogEntry (prior : Complaint) (newStatus : Status) (newPriority : Priority)
    (adminResponse : List Char) (uid : Nat) : LogEntry :=
  { complaint_id := prior.id
    action :=
      str "Status: " ++ statusName prior.status ++ str " → " ++ statusName newStatus ++
        str ", Priority: " ++ priorityName prior.priority ++ str " → " ++ priorityName newPriority
    old_status := some prior.status
    new_status := some newStatus
    notes := trimOrNull adminResponse
    performed_by := uid }

/-- `handleUpdateComplaint` (`AdminComplaints.tsx` lines 183–225): one
complaint update followed by one log insert.  The handler attempts no
other remote call — in particular it never invokes `sendNotification`. -/
def handleUpdateComplaint (prior : Complaint) (newStatus : Status) (newPriority : Priority)
    (adminResponse : List Char) (uid : Nat) (now : Nat) : List Effect :=
  [ Effect.updateComplaint prior.id (updatePayload prior newStatus newPriority adminResponse now),
    Effect.insertLog (updateLogEntry prior newStatus newPriority adminResponse uid) ]

/-- Decimal rendering of a `Nat`, for template literals. -/
def natStr (n : Nat) : List Char := (Nat.repr n).data

/-- The batch action description built by `handleBulkUpdate` (line 298):
`Bulk update: ` followed by the chosen pieces. -/
def bulkAction (bs : Option Status) (bp : Option Priority) : List Char :=
  str "Bulk update: " ++
    (match bs with | some s => str "Status → " ++ statusName s | none => []) ++
    (if bs.isSome ∧ bp.isSome then str ", " else []) ++
    (match bp with | some p => str "Priority → " ++ priorityName p | none => [])

/-- One `complaint_logs` row of the bulk action (lines 296–301): `old_status`
is never set, `new_status` is the chosen status (or `NULL`), no notes. -/
def bulkLogEntry (id : Nat) (bs : Option Status) (bp : Option Priority) (uid : Nat) : LogEntry :=
  { complaint_id := id
    action := bulkAction bs bp
    old_status := none
    new_status := bs
    notes := none
    performed_by := uid }

/-- The bulk payload assembled by `handleBulkUpdate` (lines 283–286):
each field occurs only when its branch runs; `resolved_at := now` is added
whenever the chosen status is `resolved`, with no look at the prior row. -/
def bulkPayload (bs : Option Status) (bp : Option Priority) (now : Nat) : BulkPayload :=
  { status := bs
    priority := bp
    resolved_at := if bs = some Status.resolved then some now else none }

/-- Effect of the bulk `UPDATE` payload on one selected row: absent fields
leave the column unchanged. -/
def applyBulk (c : Complaint) (u : BulkPayload) : Complaint :=
  { c with
    status := match u.status with | some s => s | none => c.status
    priority := match u.priority with | some p => p | none => c.priority
    resolved_at :=
      match u.resolved_at with
      | some t => some t
      | none => c.resolved_at }

/-- `handleBulkUpdate` (`AdminComplaints.tsx` lines 274–316): early return on
an empty selection or when neither status nor priority is chosen; otherwise
one multi-row update followed by one log insert per selected id, and no
notification call. -/
def handleBulkUpdate (ids : List Nat) (bs : Option Status) (bp : Option Priority)
    (uid : Nat) (now : Nat) : List Effect :=
  if ids = [] then []
  else if bs = none ∧ bp = none then []
  else
    Effect.updateComplaints ids (bulkPayload bs bp now) ::
      ids.map (fun id => Effect.insertLog (bulkLogEntry id bs bp uid))

/-! ### Complaint submission (`NewComplaint.tsx`) -/

/-- The client-side validation errors raised at the top of `handleSubmit`
(`NewComplaint.tsx` lines 105–118), in source order. -/
inductive SubmitError where
  | missingFields
  | subjectTooShort
  | descriptionTooShort
deriving DecidableEq, Repr

/-- `handleSubmit`'s validation (lines 105–118): required fields first,
then `subject.trim().length < 5`, then `description.trim().length < 20`. -/
def validateSubmit (categoryId : Option Nat) (subject description : List Char) :
    Option SubmitError :=
  if categoryId = none ∨ trim subject = [] ∨ trim description = [] then
    some SubmitError.missingFields
  else if (trim subject).length < 5 then some SubmitError.subjectTooShort
  else if (trim description).length < 20 then some SubmitError.descriptionTooShort
  else none

/-- The complaint row created by the insert at lines 124–133.  The insert
supplies only `user_id`, `category_id`, trimmed `subject` and trimmed
`description`; every other column comes from the table defaults of
migration `20260117134946` (`status submitted`, `resolved_at NULL`,
`attachment_url NULL`, `admin_response NULL`, `created_at now()`) and
migration `20260122202759` (`priority medium`). -/
def newComplaint (uid cid newId : Nat) (subject description : List Char) (now : Nat) :
    Complaint :=
  { id := newId
    user_id := uid
    category_id := cid
    subject := trim subject
    description := trim description
    status := Status.submitted
    priority := Priority.medium
    admin_response := none
    attachment_url := none
    created_at := now
    resolved_at := none }

/-- The storage path built by `uploadAttachment` (line 88):
`userId/complaintId/timestamp.ext`. -/
def uploadPath (uid complaintId now : Nat) (ext : List Char) : List Char :=
  natStr uid ++ str "/" ++ natStr complaintId ++ str "/" ++ natStr now ++ str "." ++ ext

/-- Outcome of a fallible remote call, supplied as an input of the
embedding. -/
inductive RemoteOutcome where
  | ok
  | err
deriving DecidableEq, Repr

/-- What `handleSubmit` reports to the user. -/
inductive SubmitResult where
  | validationError (e : SubmitError)
  | insertFailed
  | uploadFailed
  | success
deriving DecidableEq, Repr

/-- `handleSubmit` (`NewComplaint.tsx` lines 102–157).  Validation runs
before any remote call.  Then the complaint row is inserted; if an
attachment is present it is uploaded under the path embedding the new row
id, and on upload success the path is written back onto the row.  A throw
inside `uploadAttachment` (line 96) is caught by the surrounding catch: the
error is reported and no further call — in particular no delete — is made. -/
def handleSubmit (uid : Nat) (categoryId : Option Nat) (subject description : List Char)
    (attachment : Option (List Char × RemoteOutcome)) (newId : Nat)
    (insert : RemoteOutcome) (now : Nat) : SubmitResult × List Effect :=
  match validateSubmit categoryId subject description with
  | some e => (SubmitResult.validationError e, [])
  | none =>
    let row := newComplaint uid (match categoryId with | some c => c | none => 0) newId
      subject description now
    match insert with
    | RemoteOutcome.err => (SubmitResult.insertFailed, [Effect.insertComplaint row])
    | RemoteOutcome.ok =>
      match attachment with
      | none => (SubmitResult.success, [Effect.insertComplaint row])
      | some (ext, upload) =>
        let path := uploadPath uid newId now ext
        match upload with
        | RemoteOutcome.err =>
          (SubmitResult.uploadFailed, [Effect.insertComplaint row, Effect.uploadFile path])
        | RemoteOutcome.ok =>
          (SubmitResult.success,
            [Effect.insertComplaint row, Effect.uploadFile path,
              Effect.updateAttachment newId path])

/-- Interpretation of the write effects on the `complaints` table. -/
def applyEffect (db : List Complaint) : Effect → List Complaint
  | .insertComplaint c => db ++ [c]
  | .updateComplaint id u => db.map (fun c => if c.id = id then applyUpdate c u else c)
  | .updateComplaints ids u => db.map (fun c => if c.id ∈ ids then applyBulk c u else c)
  | .updateAttachment id path =>
      db.map (fun c => if c.id = id then { c with attachment_url := some path } else c)
  | .insertLog _ => db
  | .uploadFile _ => db
  | .deleteCategory _ => db
  | .notify _ => db

/-- Run a trace of effects against the `complaints` table. -/
def applyEffects (db : List Complaint) (effs : List Effect) : List Complaint :=
  effs.foldl applyEffect db

/-! ### Category deletion (`AdminCategories.tsx`) -/

/-- The pre-check query of `handleDelete` (lines 129–132): the number of
complaints whose `category_id` is the category to delete. -/
def countByCategory (db : List Complaint) (cid : Nat) : Nat :=
  (db.filter (fun c => c.category_id = cid)).length

/-- What `handleDelete` reports to the user. -/
inductive DeleteResult where
  | conflict (count : Nat)
  | deleted
  | deleteFailed
deriving DecidableEq, Repr

/-- `handleDelete` (`AdminCategories.tsx` lines 122–156): first a count
pre-check; when the count is positive the handler shows the conflict
message and returns without issuing a delete; otherwise it issues the
delete, reporting the remote outcome. -/
def handleDelete (db : List Complaint) (cid : Nat) (delete : RemoteOutcome) :
    DeleteResult × List Effect :=
  if countByCategory db cid > 0 then (DeleteResult.conflict (countByCategory db cid), [])
  else
    match delete with
    | RemoteOutcome.ok => (DeleteResult.deleted, [Effect.deleteCategory cid])
    | RemoteOutcome.err => (DeleteResult.deleteFailed, [Effect.deleteCategory cid])

/-! ### CSV export (reports view, `exportToCSV`) -/

/-- `.replace(/"/g, '""')`: double every embedded double quote. -/
def csvEscape (s : List Char) : List Char :=
  s.flatMap (fun c => if c = '"' then ['"', '"'] else [c])

/-- The template literal wrapping of a quoted CSV cell:
a double quote, the escaped text, a double quote. -/
def csvQuote (s : List Char) : List Char :=
  '"' :: (csvEscape s ++ ['"'])

/-- The owner fields joined in by the profile lookup. -/
structure ProfileInfo where
  full_name : List Char
  email : List Char
deriving DecidableEq, Repr

/-- The headers line of `exportToCSV` in the priority-aware revision of the
admin reports view. -/
def csvHeaders : List (List Char) :=
  [str "ID", str "Subject", str "Category", str "Status", str "Priority",
    str "Student Name", str "Student Email", str "Created At", str "Resolved At",
    str "Resolution Days", str "Admin Response"]

/-- `Math.ceil` of an exact rational division, on integers. -/
def ceilDiv (a b : Int) : Int := -((-a).fdiv b)

/-- Decimal rendering of an `Int`. -/
def intStr (i : Int) : List Char :=
  if i < 0 then '-' :: natStr i.natAbs else natStr i.natAbs

/-- The `resolutionDays` cell: days between creation and resolution rounded
up (timestamps in milliseconds), or the empty cell when unresolved. -/
def resolutionDaysCell (c : Complaint) : List Char :=
  match c.resolved_at with
  | some t => intStr (ceilDiv ((t : Int) - (c.created_at : Int)) 86400000)
  | none => []

/-- One data row of `exportToCSV`, in emitted order.  Only the Subject and
Admin Response cells go through the quote-and-escape template literal; the
remaining cells are emitted as-is.  `fmtDate` stands for the
locale-dependent `new Date(t).toLocaleString()`. -/
def exportRow (fmtDate : Nat → List Char) (categoryName : Option (List Char))
    (profile : Option ProfileInfo) (c : Complaint) : List (List Char) :=
  [ natStr c.id,
    csvQuote c.subject,
    (match categoryName with | some n => n | none => []),
    statusName c.status,
    priorityName c.priority,
    (match profile with | some p => p.full_name | none => []),
    (match profile with | some p => p.email | none => []),
    fmtDate c.created_at,
    (match c.resolved_at with | some t => fmtDate t | none => []),
    resolutionDaysCell c,
    csvQuote (match c.admin_response with | some r => r | none => []) ]

/-- `headers.join(',')` / `row.join(',')`. -/
def csvLine (cells : List (List Char)) : List Char :=
  List.intercalate [','] cells

/-! ### Lifecycle traces for the `resolved_at` invariant -/

/-- One admin operation touching a given complaint: either the
single-complaint update dialog, or a bulk update whose selection contains
the complaint. -/
inductive AdminOp where
  | update (newStatus : Status) (newPriority : Priority) (adminResponse : List Char) (now : Nat)
  | bulk (bs : Option Status) (bp : Option Priority) (now : Nat)
deriving DecidableEq, Repr

/-- The effect of one admin operation on the complaint row.  A bulk update
with neither field chosen is rejected by the handler before any write; its
payload here is the identity, so the same state results. -/
def stepComplaint (c : Complaint) : AdminOp → Complaint
  | .update ns np ar now => applyUpdate c (updatePayload c ns np ar now)
  | .bulk bs bp now => applyBulk c (bulkPayload bs bp now)

/-- The complaint row after a sequence of admin operations. -/
def runOps (c : Complaint) : List AdminOp → Complaint
  | [] => c
  | op :: ops => runOps (stepComplaint c op) ops

/-- Whether the complaint has status `resolved` in any state along the
trace (the current state included). -/
def everResolved : Complaint → List AdminOp → Bool
  | c, [] => decide (c.status = Status.resolved)
  | c, op :: ops => decide (c.status = Status.resolved) || everResolved (stepComplaint c op) ops

/-- The per-row invariant: a resolved complaint has a resolution stamp. -/
def ResolvedStamped (c : Complaint) : Prop :=
  c.status = Status.resolved → c.resolved_at ≠ none

/-- A sample complaint row, used in concrete evaluations. -/
def sampleComplaint : Complaint :=
  { id := 1
    user_id := 10
    category_id := 3
    subject := str "Projector broken in room 5"
    description := str "The projector in room 5 has not worked for a week."
    status := Status.submitted
    priority := Priority.medium
    admin_response := none
    attachment_url := none
    created_at := 1000
    resolved_at := none }

/-- A sample complaint row that is already resolved. -/
def sampleResolved : Complaint :=
  { sampleComplaint with status := Status.resolved, resolved_at := some 2000 }

/-! ### Helper lemmas -/

lemma trim_length_le (s : List Char) : (trim s).length ≤ s.length := by
  unfold trim
  calc (((s.dropWhile Char.isWhitespace).reverse.dropWhile Char.isWhitespace).reverse).length
      = ((s.dropWhile Char.isWhitespace).reverse.dropWhile Char.isWhitespace).length :=
        List.length_reverse _
    _ ≤ (s.dropWhile Char.isWhitespace).reverse.length :=
        (List.dropWhile_sublist Char.isWhitespace).length_le
    _ = (s.dropWhile Char.isWhitespace).length := List.length_reverse _
    _ ≤ s.length := (List.dropWhile_sublist Char.isWhitespace).length_le

/-- Each step either stamps `resolved_at` while moving the row to status
`resolved`, or leaves `resolved_at` unchanged and only reports `resolved`
when the row already was. -/
lemma stepComplaint_cases (c : Complaint) (op : AdminOp) :
    ((stepComplaint c op).resolved_at ≠ none ∧ (stepComplaint c op).status = Status.resolved) ∨
      ((stepComplaint c op).resolved_at = c.resolved_at ∧
        ((stepComplaint c op).status = Status.resolved → c.status = Status.resolved)) := by
  cases op with
  | update ns np ar now =>
    by_cases h : ns = Status.resolved ∧ c.status ≠ Status.resolved
    · left
      constructor
      · simp [stepComplaint, applyUpdate, updatePayload, if_pos h]
      · simp [stepComplaint, applyUpdate, updatePayload, h.1]
    · right
      constructor
      · simp [stepComplaint, applyUpdate, updatePayload, if_neg h]
      · intro hs
        simp only [stepComplaint, applyUpdate, updatePayload] at hs
        by_contra hc
        exact h ⟨hs, hc⟩
  | bulk bs bp now =>
    by_cases h : bs = some Status.resolved
    · left
      constructor
      · simp [stepComplaint, applyBulk, bulkPayload, if_pos h]
      · simp [stepComplaint, applyBulk, bulkPayload, h]
    · right
      constructor
      · simp [stepComplaint, applyBulk, bulkPayload, if_neg h]
      · intro hs
        simp only [stepComplaint, applyBulk, bulkPayload] at hs
        cases hbs : bs with
        | none => rw [hbs] at hs; exact hs
        | some s =>
          rw [hbs] at hs
          simp at hs
          exact absurd (by rw [hbs, hs]) h

lemma resolved_at_stepComplaint_ne_none {c : Complaint} (op : AdminOp)
    (h : c.resolved_at ≠ none) : (stepComplaint c op).resolved_at ≠ none := by
  rcases stepComplaint_cases c op with ⟨hne, _⟩ | ⟨heq, _⟩
  · exact hne
  · rw [heq]; exact h

lemma resolvedStamped_stepComplaint {c : Complaint} (op : AdminOp)
    (h : ResolvedStamped c) : ResolvedStamped (stepComplaint c op) := by
  intro hs
  rcases stepComplaint_cases c op with ⟨hne, _⟩ | ⟨heq, himp⟩
  · exact hne
  · rw [heq]; exact h (himp hs)

lemma everResolved_of_status {c : Complaint} (h : c.status = Status.resolved)
    (ops : List AdminOp) : everResolved c ops = true := by
  cases ops <;> simp [everResolved, h]

lemma runOps_resolved_at_iff (ops : List AdminOp) :
    ∀ c : Complaint, ResolvedStamped c →
      ((runOps c ops).resolved_at ≠ none ↔
        (c.resolved_at ≠ none ∨ everResolved c ops = true)) := by
  induction ops with
  | nil =>
    intro c hc
    simp only [runOps, everResolved, decide_eq_true_iff]
    constructor
    · intro h; exact Or.inl h
    · rintro (h | h)
      · exact h
      · exact hc h
  | cons op rest ih =>
    intro c hc
    have hstep := ih (stepComplaint c op) (resolvedStamped_stepComplaint op hc)
    simp only [runOps, everResolved, Bool.or_eq_true, decide_eq_true_iff]
    rw [hstep]
    constructor
    · rintro (hra | hE)
      · rcases stepComplaint_cases c op with ⟨_, hst⟩ | ⟨heq, _⟩
        · exact Or.inr (Or.inr (everResolved_of_status hst rest))
        · rw [heq] at hra; exact Or.inl hra
      · exact Or.inr (Or.inr hE)
    · rintro (hra | hst | hE)
      · exact Or.inl (resolved_at_stepComplaint_ne_none op hra)
      · exact Or.inl (resolved_at_stepComplaint_ne_none op (hc hst))
      · exact Or.inr hE

/-! ### Claim theorems -/

/-- C2: after a single-complaint admin update, `resolved_at` is stamped with
the current time exactly when the new status is `resolved` and the prior
status was not; in every other case (reopening included) it is left exactly
as it was. -/
theorem update_resolved_at_policy (c : Complaint) (ns : Status) (np : Priority)
    (ar : List Char) (now : Nat) :
    ((ns = Status.resolved ∧ c.status ≠ Status.resolved) →
        (applyUpdate c (updatePayload c ns np ar now)).resolved_at = some now) ∧
      (¬(ns = Status.resolved ∧ c.status ≠ Status.resolved) →
        (applyUpdate c (updatePayload c ns np ar now)).resolved_at = c.resolved_at) := by
  constructor
  · intro h
    simp [applyUpdate, updatePayload, if_pos h]
  · intro h
    simp [applyUpdate, updatePayload, if_neg h]

/-- C2 witness: resolving a submitted complaint stamps `resolved_at = now`;
reopening an already-resolved complaint keeps its old stamp. -/
theorem update_resolved_at_policy_witness :
    (applyUpdate sampleComplaint
        (updatePayload sampleComplaint Status.resolved Priority.high [] 42)).resolved_at =
        some 42 ∧
      (applyUpdate sampleResolved
          (updatePayload sampleResolved Status.in_review Priority.high [] 42)).resolved_at =
        sampleResolved.resolved_at :=
  ⟨(update_resolved_at_policy sampleComplaint Status.resolved Priority.high [] 42).1
      (by decide),
    (update_resolved_at_policy sampleResolved Status.in_review Priority.high [] 42).2
      (by decide)⟩

/-- C3: over every sequence of admin operations applied to a freshly
submitted complaint, `resolved_at` is non-null exactly when the complaint
has at some point had status `resolved`; in particular no later
non-resolved update clears it. -/
theorem resolved_at_iff_everResolved (uid cid newId : Nat)
    (subject description : List Char) (now : Nat) (ops : List AdminOp) :
    (runOps (newComplaint uid cid newId subject description now) ops).resolved_at ≠ none ↔
      everResolved (newComplaint uid cid newId subject description now) ops = true := by
  have h := runOps_resolved_at_iff ops (newComplaint uid cid newId subject description now)
    (by intro hs; simp [newComplaint] at hs)
  rw [h]
  simp [newComplaint]

/-- C1 counterexample: an admin update that changes the status from
`submitted` to `resolved` attempts zero notification calls, not one. -/
theorem update_notification_counterexample :
    sampleComplaint.status = Status.submitted ∧
      notifyCount
          (handleUpdateComplaint sampleComplaint Status.resolved Priority.medium [] 7 100) =
        0 := by
  constructor
  · rfl
  · rfl

/-- C1 amended: an admin update that changes a complaint's status or
priority attempts no notification call at all — the trace of
`handleUpdateComplaint` contains zero notification effects and never
contains an invocation of `sendNotification`. -/
theorem update_attempts_no_notification (prior : Complaint) (ns : Status) (np : Priority)
    (ar : List Char) (uid now : Nat) :
    notifyCount (handleUpdateComplaint prior ns np ar uid now) = 0 ∧
      ∀ p : NotificationParams,
        sendNotification p ∉ handleUpdateComplaint prior ns np ar uid now := by
  constructor
  · rfl
  · intro p
    simp [handleUpdateComplaint, sendNotification]

/-- C4: a bulk update whose chosen status is `resolved` carries
`resolved_at = now` in its payload, and applying it moves every selected
row to status `resolved` with `resolved_at = now` unconditionally — an
already-resolved row's earlier stamp is overwritten.  The payload is
issued whenever the selection is non-empty. -/
theorem bulk_resolved_stamps_unconditionally (bp : Option Priority) (now : Nat) :
    (bulkPayload (some Status.resolved) bp now).resolved_at = some now ∧
      (∀ c : Complaint,
        (applyBulk c (bulkPayload (some Status.resolved) bp now)).resolved_at = some now ∧
          (applyBulk c (bulkPayload (some Status.resolved) bp now)).status = Status.resolved) ∧
      ∀ (ids : List Nat) (uid : Nat), ids ≠ [] →
        Effect.updateComplaints ids (bulkPayload (some Status.resolved) bp now) ∈
          handleBulkUpdate ids (some Status.resolved) bp uid now := by
  refine ⟨by simp [bulkPayload], fun c => ⟨by simp [applyBulk, bulkPayload], by simp [applyBulk, bulkPayload]⟩, ?_⟩
  intro ids uid hids
  simp [handleBulkUpdate, hids]

/-- C4 witness: a bulk resolve overwrites the stamp of an
already-resolved complaint with the new time. -/
theorem bulk_resolved_stamps_unconditionally_witness :
    (applyBulk sampleResolved (bulkPayload (some Status.resolved) none 5000)).resolved_at =
        some 5000 ∧
      Effect.updateComplaints [1] (bulkPayload (some Status.resolved) none 5000) ∈
        handleBulkUpdate [1] (some Status.resolved) none 7 5000 :=
  ⟨((bulk_resolved_stamps_unconditionally none 5000).2.1 sampleResolved).1,
    (bulk_resolved_stamps_unconditionally none 5000).2.2 [1] 7 (by decide)⟩

/-- C5: a bulk update over a duplicate-free selection with at least one of
status or priority chosen appends exactly one `complaint_logs` row per
selected id — so exactly as many rows as ids — and attempts zero
notification calls. -/
theorem bulk_logs_and_notifications (ids : List Nat) (bs : Option Status)
    (bp : Option Priority) (uid now : Nat) (hnodup : ids.Nodup)
    (hchosen : ¬(bs = none ∧ bp = none)) :
    (handleBulkUpdate ids bs bp uid now).filter isLog =
        ids.map (fun id => Effect.insertLog (bulkLogEntry id bs bp uid)) ∧
      logCount (handleBulkUpdate ids bs bp uid now) = ids.length ∧
      notifyCount (handleBulkUpdate ids bs bp uid now) = 0 := by
  by_cases hids : ids = []
  · subst hids
    simp [handleBulkUpdate, logCount, notifyCount]
  · have hfilter : (handleBulkUpdate ids bs bp uid now).filter isLog =
        ids.map (fun id => Effect.insertLog (bulkLogEntry id bs bp uid)) := by
      simp only [handleBulkUpdate, if_neg hids, if_neg hchosen]
      rw [List.filter_cons_of_neg (by simp [isLog])]
      rw [List.filter_map]
      have : (isLog ∘ fun id => Effect.insertLog (bulkLogEntry id bs bp uid)) =
          fun _ => true := by
        funext id
        simp [isLog]
      rw [this, List.filter_true]
    refine ⟨hfilter, ?_, ?_⟩
    · rw [logCount, hfilter, List.length_map]
    · simp only [handleBulkUpdate, if_neg hids, if_neg hchosen, notifyCount]
      rw [List.filter_cons_of_neg (by simp [isNotify])]
      rw [List.filter_map]
      have : (isNotify ∘ fun id => Effect.insertLog (bulkLogEntry id bs bp uid)) =
          fun _ => false := by
        funext id
        simp [isNotify]
      rw [this, List.filter_false]
      rfl

/-- C5 witness: a bulk status update over the two ids `[1, 2]` appends two
log rows and no notification. -/
theorem bulk_logs_and_notifications_witness :
    (handleBulkUpdate [1, 2] (some Status.in_review) none 7 50).filter isLog =
        [1, 2].map
          (fun id => Effect.insertLog (bulkLogEntry id (some Status.in_review) none 7)) ∧
      logCount (handleBulkUpdate [1, 2] (some Status.in_review) none 7 50) = 2 ∧
      notifyCount (handleBulkUpdate [1, 2] (some Status.in_review) none 7 50) = 0 :=
  bulk_logs_and_notifications [1, 2] (some Status.in_review) none 7 50
    (by decide) (by decide)

/-- C6 counterexample: in the emitted CSV row the Subject cell is quoted
with embedded quotes doubled, but the Student Name cell — also a text
field — is emitted without any wrapping quotes, so not every text field is
wrapped in double quotes. -/
theorem csv_quoting_counterexample :
    (exportRow natStr (some (str "Facilities"))
          (some { full_name := str "Alice Smith", email := str "alice@example.com" })
          { sampleComplaint with subject := str "He said \"hi\"" }).get? 1 =
        some (str "\"He said \"\"hi\"\"\"") ∧
      (exportRow natStr (some (str "Facilities"))
          (some { full_name := str "Alice Smith", email := str "alice@example.com" })
          { sampleComplaint with subject := str "He said \"hi\"" }).get? 5 =
        some (str "Alice Smith") ∧
      (str "Alice Smith").head? ≠ some '"' := by
  refine ⟨by decide, by decide, by decide⟩

/-- C6 amended: the emitted column order is ID, Subject, Category, Status,
Priority, Student Name, Student Email, Created At, Resolved At, Resolution
Days, Admin Response; the Subject and Admin Response cells are wrapped in
double quotes with each internal double quote doubled (so a subject
`He said "hi"` is emitted as `"He said ""hi"""`), while the remaining
cells — the Student Name text field included — are emitted unquoted. -/
theorem csv_export_format (fmtDate : Nat → List Char) (catName : List Char)
    (p : ProfileInfo) (c : Complaint) (a b : List Char) :
    (exportRow fmtDate (some catName) (some p) c).length = csvHeaders.length ∧
      csvHeaders.length = 11 ∧
      (exportRow fmtDate (some catName) (some p) c).get? 1 = some (csvQuote c.subject) ∧
      (exportRow fmtDate (some catName) (some p) c).get? 2 = some catName ∧
      (exportRow fmtDate (some catName) (some p) c).get? 5 = some p.full_name ∧
      (exportRow fmtDate (some catName) (some p) c).get? 10 =
        some (csvQuote (match c.admin_response with | some r => r | none => [])) ∧
      csvEscape (a ++ '"' :: b) = csvEscape a ++ '"' :: '"' :: csvEscape b ∧
      csvQuote (str "He said \"hi\"") = str "\"He said \"\"hi\"\"\"" := by
  refine ⟨rfl, rfl, rfl, rfl, rfl, rfl, ?_, by decide⟩
  simp [csvEscape, List.flatMap_append, List.flatMap_cons]

/-- C7: a submission whose subject has fewer than 5 characters or whose
description has fewer than 20 characters is rejected with a validation
error and no remote call — no data-store or blob-store write — occurs. -/
theorem submit_rejects_short_fields (uid : Nat) (categoryId : Option Nat)
    (subject description : List Char) (attachment : Option (List Char × RemoteOutcome))
    (newId : Nat) (insert : RemoteOutcome) (now : Nat)
    (h : subject.length < 5 ∨ description.length < 20) :
    (∃ e, (handleSubmit uid categoryId subject description attachment newId insert now).1 =
        SubmitResult.validationError e) ∧
      (handleSubmit uid categoryId subject description attachment newId insert now).2 = [] := by
  have hv : ∃ e, validateSubmit categoryId subject description = some e := by
    by_cases hm : categoryId = none ∨ trim subject = [] ∨ trim description = []
    · exact ⟨SubmitError.missingFields, by simp [validateSubmit, hm]⟩
    · rcases h with h | h
      · have hs : (trim subject).length < 5 := lt_of_le_of_lt (trim_length_le subject) h
        exact ⟨SubmitError.subjectTooShort, by simp [validateSubmit, hm, hs]⟩
      · have hd : (trim description).length < 20 :=
          lt_of_le_of_lt (trim_length_le description) h
        by_cases hs : (trim subject).length < 5
        · exact ⟨SubmitError.subjectTooShort, by simp [validateSubmit, hm, hs]⟩
        · exact ⟨SubmitError.descriptionTooShort, by simp [validateSubmit, hm, hs, hd]⟩
  obtain ⟨e, he⟩ := hv
  exact ⟨⟨e, by simp [handleSubmit, he]⟩, by simp [handleSubmit, he]⟩

/-- C7 witness: a 3-character subject is rejected with no remote call. -/
theorem submit_rejects_short_fields_witness :
    (∃ e, (handleSubmit 10 (some 1) (str "abc")
        (str "This is a valid description text.") none 5 RemoteOutcome.ok 9).1 =
        SubmitResult.validationError e) ∧
      (handleSubmit 10 (some 1) (str "abc")
          (str "This is a valid description text.") none 5 RemoteOutcome.ok 9).2 = [] :=
  submit_rejects_short_fields 10 (some 1) (str "abc")
    (str "This is a valid description text.") none 5 RemoteOutcome.ok 9 (by decide)

/-- C8: a submission that passes validation inserts a complaint row whose
`status` is `submitted`, whose `priority` is `medium` and whose
`resolved_at` is null (the insert omits those columns, so the table
defaults of the migrations apply). -/
theorem submit_creates_with_defaults (uid cid : Nat) (subject description : List Char)
    (attachment : Option (List Char × RemoteOutcome)) (newId : Nat) (insert : RemoteOutcome)
    (now : Nat) (h : validateSubmit (some cid) subject description = none) :
    (handleSubmit uid (some cid) subject description attachment newId insert now).2.head? =
        some (Effect.insertComplaint (newComplaint uid cid newId subject description now)) ∧
      (newComplaint uid cid newId subject description now).status = Status.submitted ∧
      (newComplaint uid cid newId subject description now).priority = Priority.medium ∧
      (newComplaint uid cid newId subject description now).resolved_at = none := by
  refine ⟨?_, rfl, rfl, rfl⟩
  cases insert with
  | err => simp [handleSubmit, h]
  | ok =>
    cases attachment with
    | none => simp [handleSubmit, h]
    | some au =>
      obtain ⟨ext, u⟩ := au
      cases u <;> simp [handleSubmit, h]

/-- C8 witness: the spec scenario — subject `Broken projector` (16 chars)
and a 25-character description pass validation and create a submitted,
medium-priority, unresolved complaint. -/
theorem submit_creates_with_defaults_witness :
    (handleSubmit 10 (some 2) (str "Broken projector") (str "This projector is broken.")
            none 9 RemoteOutcome.ok 77).2.head? =
        some (Effect.insertComplaint
          (newComplaint 10 2 9 (str "Broken projector") (str "This projector is broken.") 77)) ∧
      (newComplaint 10 2 9 (str "Broken projector")
          (str "This projector is broken.") 77).status = Status.submitted ∧
      (newComplaint 10 2 9 (str "Broken projector")
          (str "This projector is broken.") 77).priority = Priority.medium ∧
      (newComplaint 10 2 9 (str "Broken projector")
          (str "This projector is broken.") 77).resolved_at = none :=
  submit_creates_with_defaults 10 2 (str "Broken projector")
    (str "This projector is broken.") none 9 RemoteOutcome.ok 77 (by decide)

/-- C9: when the complaint insert succeeds and the subsequent attachment
upload fails, the failure is reported, yet the complaint row stays in the
store with a null `attachment_url` — nothing is deleted or rolled back. -/
theorem upload_failure_keeps_complaint (uid cid : Nat)
    (subject description ext : List Char) (newId now : Nat) (db : List Complaint)
    (h : validateSubmit (some cid) subject description = none) :
    (handleSubmit uid (some cid) subject description (some (ext, RemoteOutcome.err)) newId
          RemoteOutcome.ok now).1 = SubmitResult.uploadFailed ∧
      applyEffects db
          (handleSubmit uid (some cid) subject description (some (ext, RemoteOutcome.err))
            newId RemoteOutcome.ok now).2 =
        db ++ [newComplaint uid cid newId subject description now] ∧
      (newComplaint uid cid newId subject description now).attachment_url = none := by
  refine ⟨?_, ?_, rfl⟩
  · simp [handleSubmit, h]
  · simp [handleSubmit, h, applyEffects, applyEffect]

/-- C9 witness: a concrete failing upload leaves the inserted row in the
store without an attachment. -/
theorem upload_failure_keeps_complaint_witness :
    (handleSubmit 10 (some 2) (str "Broken projector") (str "This projector is broken.")
          (some (str "png", RemoteOutcome.err)) 9 RemoteOutcome.ok 77).1 =
        SubmitResult.uploadFailed ∧
      applyEffects []
          (handleSubmit 10 (some 2) (str "Broken projector")
            (str "This projector is broken.") (some (str "png", RemoteOutcome.err)) 9
            RemoteOutcome.ok 77).2 =
        [] ++ [newComplaint 10 2 9 (str "Broken projector")
          (str "This projector is broken.") 77] ∧
      (newComplaint 10 2 9 (str "Broken projector")
          (str "This projector is broken.") 77).attachment_url = none :=
  upload_failure_keeps_complaint 10 2 (str "Broken projector")
    (str "This projector is broken.") (str "png") 9 77 [] (by decide)

/-- C10: deleting a category fails with the conflict message and issues no
delete exactly when some complaint references the category (detected by the
count pre-check); otherwise the delete is issued and, when the remote call
succeeds, the category is reported deleted. -/
theorem delete_category_conflict_iff (db : List Complaint) (cid : Nat)
    (del : RemoteOutcome) :
    ((handleDelete db cid del).2 = [] ↔ countByCategory db cid > 0) ∧
      (countByCategory db cid > 0 →
        (handleDelete db cid del).1 = DeleteResult.conflict (countByCategory db cid)) ∧
      (¬countByCategory db cid > 0 →
        (handleDelete db cid del).2 = [Effect.deleteCategory cid] ∧
          (del = RemoteOutcome.ok → (handleDelete db cid del).1 = DeleteResult.deleted)) := by
  by_cases hc : countByCategory db cid > 0
  · simp [handleDelete, hc]
  · cases del <;> simp [handleDelete, hc]

/-- C10 witness: with one complaint in category 3, deleting category 3
conflicts with no delete issued, while deleting the unused category 99
issues the delete. -/
theorem delete_category_conflict_iff_witness :
    (handleDelete [sampleComplaint] 3 RemoteOutcome.ok).1 =
        DeleteResult.conflict (countByCategory [sampleComplaint] 3) ∧
      (handleDelete [sampleComplaint] 99 RemoteOutcome.ok).2 =
        [Effect.deleteCategory 99] :=
  ⟨(delete_category_conflict_iff [sampleComplaint] 3 RemoteOutcome.ok).2.1 (by decide),
    ((delete_category_conflict_iff [sampleComplaint] 99 RemoteOutcome.ok).2.2
        (by decide)).1⟩

end StudentResolve
